import Mathlib

/-!
# Verification of librpigrafx (`src/mmal.c`)

A shallow embedding of the pipeline-configuration and frame-acquisition
logic of `src/mmal.c` (librpigrafx), together with theorems settling the
specification claims about it.

Modelling conventions:

* All dimension / index values are `int32_t` in the source.  In every
  reachable configuration they are non-negative and far below 2^31
  (widths/heights are bounded by the camera's hardware maximum), so they
  are modelled as `Nat`; C integer division on these non-negative values
  agrees with `Nat` division.
* MMAL pixel encodings (`MMAL_FOURCC_T`) are opaque; they are modelled as
  bare `Nat` codes.
* The asynchronous MMAL world (pool queues, the connection delivery
  queue, buffers released back to the framework, buffers sent to ports)
  is modelled as an explicit `MmalWorld` record threaded through the
  operations.  `mmal_queue_wait` blocking forever (empty delivery queue)
  is modelled by returning `none`.
* Calls into the MMAL framework that can fail independently of this
  library's state (`mmal_port_parameter_set_boolean` for the capture
  trigger, `mmal_port_send_buffer` to the render port, `malloc`) are
  modelled by boolean oracle parameters.
-/

/-- `NUM_SPLITTER_OUTPUTS` from `src/mmal.c`: the splitter fan-out. -/
def NUM_SPLITTER_OUTPUTS : Nat := 4

/-- An MMAL buffer header, as far as the library observes it: an identity
(so that distinct deliveries can be told apart) and a payload length. -/
structure Buffer where
  id : Nat
  length : Nat
deriving DecidableEq, Repr

/-- `struct callback_context` from `src/mmal.c`: the per-(camera, slot)
frame context.  `statusSuccess` models `ctx->status == MMAL_SUCCESS`. -/
structure CallbackContext where
  header : Option Buffer
  isHeaderPassedToRender : Bool
  statusSuccess : Bool
deriving DecidableEq, Repr

/-- The observable state of the MMAL framework around one isp→render
connection: the connection's pool queue (`conn->pool->queue`), its
delivery queue (`conn->queue`), the buffers resubmitted to the producing
port (`conn->out`), the buffer pointers submitted to the render input
port (`conn->in`; the source passes `ctx->header` unguarded, hence
`Option Buffer`), and the buffers released back to the framework with
`mmal_buffer_header_release`. -/
structure MmalWorld where
  poolQueue : List Buffer
  connQueue : List Buffer
  sentToOut : List Buffer
  sentToRenderPort : List (Option Buffer)
  released : List Buffer
deriving DecidableEq, Repr

/-- `rpigrafx_free_frame` (`src/mmal.c:1673`): a no-op returning 0 when no
header is held or the held header was passed to render; otherwise releases
the header and clears the context.  It always returns 0. -/
def rpigrafx_free_frame (ctx : CallbackContext) (w : MmalWorld) :
    Nat × CallbackContext × MmalWorld :=
  match ctx.header with
  | none => (0, ctx, w)
  | some h =>
    if ctx.isHeaderPassedToRender then (0, ctx, w)
    else (0, { ctx with header := none, isHeaderPassedToRender := false },
          { w with released := w.released ++ [h] })

/-- `rpigrafx_render_frame` (`src/mmal.c:1691`).  `sendOk` models the
status of `mmal_port_send_buffer` on the render input port.  Note the
source's send-failure branch prints an error and `goto end` WITHOUT
setting `ret = 1`, so it returns 0. -/
def rpigrafx_render_frame (sendOk : Bool) (ctx : CallbackContext)
    (w : MmalWorld) : Nat × CallbackContext × MmalWorld :=
  if ¬ ctx.statusSuccess then (1, ctx, w)
  else
    let w := { w with sentToRenderPort := w.sentToRenderPort ++ [ctx.header] }
    if ¬ sendOk then (0, ctx, w)
    else (0, { ctx with isHeaderPassedToRender := true }, w)

/-- The pool-refill loop at the head of each `capture_next_frame`
iteration (`src/mmal.c:1619`): drain `conn->pool->queue`, resubmitting
every buffer to `conn->out`. -/
def drainPool (w : MmalWorld) : MmalWorld :=
  { w with poolQueue := [], sentToOut := w.sentToOut ++ w.poolQueue }

/-- The wait/retry loop of `rpigrafx_capture_next_frame`
(`src/mmal.c:1615`): refill the pool, block on `conn->queue`
(`mmal_queue_wait`), release zero-length buffers and retry, return the
first buffer with non-zero length.  The delivery queue is carried as the
structural argument `q` (the caller passes `w.connQueue`); an empty queue
means the C code blocks forever, modelled as `none`. -/
def captureWaitLoop (q : List Buffer) (w : MmalWorld) :
    Option (Buffer × MmalWorld) :=
  let w1 := drainPool w
  match q with
  | [] => none
  | h :: rest =>
    if h.length = 0 then
      captureWaitLoop rest
        { w1 with connQueue := rest, released := w1.released ++ [h] }
    else some (h, { w1 with connQueue := rest })

/-- `rpigrafx_capture_next_frame` (`src/mmal.c:1455`), non-rawcam path.
`useCapturePort` is `cfg->use_camera_capture_port`; `armOk` models the
status of the `MMAL_PARAMETER_CAPTURE` trigger.  Returns `none` when the
wait on `conn->queue` would block forever, otherwise
`(ret, ctx, world)`.  Mirrors the source order: arm trigger, call
`rpigrafx_free_frame` (propagating a non-zero return, though it never
occurs), run the wait/retry loop, and only then store the delivered
header in `ctx->header` — without touching `is_header_passed_to_render`
or `ctx->status`. -/
def rpigrafx_capture_next_frame (useCapturePort armOk : Bool)
    (ctx : CallbackContext) (w : MmalWorld) :
    Option (Nat × CallbackContext × MmalWorld) :=
  if useCapturePort ∧ ¬ armOk then some (1, ctx, w)
  else
    match rpigrafx_free_frame ctx w with
    | (r, ctx1, w1) =>
      if r ≠ 0 then some (r, ctx1, w1)
      else
        match captureWaitLoop w1.connQueue w1 with
        | none => none
        | some (h, w2) => some (0, { ctx1 with header := some h }, w2)

/-- `rpigrafx_get_frame` (`src/mmal.c:1649`): the held buffer, or `none`
(NULL) when the status is not success or no buffer is held.  No side
effects. -/
def rpigrafx_get_frame (ctx : CallbackContext) : Option Buffer :=
  if ¬ ctx.statusSuccess then none
  else match ctx.header with
  | none => none
  | some h => some h

/-- One entry of `cfg->isp[]` (`struct isp_config` in `src/mmal.c`): the
per-output requested size, encoding and zero-copy flag. -/
structure IspSlotConfig where
  width : Nat
  height : Nat
  encoding : Nat
  isZeroCopyRendering : Bool
deriving DecidableEq, Repr

/-- One entry of the `cameras_config[]` table (`struct cameras_config` in
`src/mmal.c`).  `width`/`height` are the shared upstream size written by
`rpigrafx_finish_config`; `nextOutputIdx` is `splitter.next_output_idx`;
`isp` is the fixed `isp[NUM_SPLITTER_OUTPUTS]` array, modelled as a
function (only indices below `nextOutputIdx` are meaningful).
`rawEncoding` is the `raw_encoding` FOURCC chosen by
`rpigrafx_config_rawcam`. -/
structure CamerasConfig where
  isUsed : Bool
  width : Nat
  height : Nat
  maxWidth : Nat
  maxHeight : Nat
  useCameraCapturePort : Bool
  nextOutputIdx : Nat
  isp : Nat → IspSlotConfig
  isRawcam : Bool
  rawEncoding : Nat

/-- `rpigrafx_frame_config_t` as filled in by
`rpigrafx_config_camera_frame`: the (camera, splitter-output) handle plus
the freshly allocated callback context. -/
structure FrameConfig where
  cameraNumber : Nat
  splitterOutputPortIndex : Nat
  isZeroCopyRendering : Bool
  ctx : CallbackContext
deriving DecidableEq, Repr

/-- `rpigrafx_config_camera_frame` (`src/mmal.c:352`).  `cfg` is the
`cameras_config[camera_number]` entry; `mallocOk` models the success of
the `malloc` of the callback context.  Mirrors the source order exactly:
range check, width check, height check, set `is_used`, capacity check
against `NUM_SPLITTER_OUTPUTS - 1`, post-increment `next_output_idx` and
fill `isp[idx]`, allocate the context (`status = MMAL_SUCCESS`,
`header = NULL`, flag clear), fill the frame config.  Returns
`(ret, cfg, frame config or none)`. -/
def rpigrafx_config_camera_frame (numCameras cameraNumber width height : Nat)
    (encoding : Nat) (isZeroCopyRendering : Bool)
    (cfg : CamerasConfig) (mallocOk : Bool) :
    Nat × CamerasConfig × Option FrameConfig :=
  if cameraNumber ≥ numCameras then (1, cfg, none)
  else if width > cfg.maxWidth then (1, cfg, none)
  else if height > cfg.maxHeight then (1, cfg, none)
  else
    let cfg := { cfg with isUsed := true }
    if cfg.nextOutputIdx = NUM_SPLITTER_OUTPUTS - 1 then (1, cfg, none)
    else
      let idx := cfg.nextOutputIdx
      let cfg := { cfg with
        nextOutputIdx := idx + 1,
        isp := fun k =>
          if k = idx then ⟨width, height, encoding, isZeroCopyRendering⟩
          else cfg.isp k }
      if ¬ mallocOk then (1, cfg, none)
      else
        (0, cfg,
         some ⟨cameraNumber, idx, isZeroCopyRendering,
               ⟨none, false, true⟩⟩)

/-- `MMAL_ENCODING_RGB24`, modelled as an abstract FOURCC code. -/
def MMAL_ENCODING_RGB24 : Nat := 0

/-- `MMAL_ENCODING_OPAQUE`, modelled as an abstract FOURCC code. -/
def MMAL_ENCODING_OPAQ : Nat := 1

/-- `VCOS_ALIGN_UP(value, round_to)` from the VideoCore headers:
`((value) + (round_to) - 1) & ~((round_to) - 1)`.  For the power-of-two
alignments used here (32, 16) this equals rounding up to the next
multiple, written arithmetically. -/
def VCOS_ALIGN_UP (value roundTo : Nat) : Nat :=
  (value + roundTo - 1) - (value + roundTo - 1) % roundTo

/-- Modelled from the spec: `ALIGN_UP` is defined in `local.h`, which is
not under `src/`; per the spec's stride discussion it is the same
round-up-to-multiple operation as `VCOS_ALIGN_UP`. -/
def ALIGN_UP (value roundTo : Nat) : Nat := VCOS_ALIGN_UP value roundTo

/-- The format fields committed to a port by `mmal_port_format_commit`,
as set by `config_port` / `config_port_crop`. -/
structure PortConfig where
  encoding : Nat
  videoWidth : Nat
  videoHeight : Nat
  cropX : Nat
  cropY : Nat
  cropWidth : Nat
  cropHeight : Nat
deriving DecidableEq, Repr

/-- `config_port` (`src/mmal.c:196`): video size aligned up to 32/16,
crop = the exact requested size at (0,0). -/
def config_port (encoding width height : Nat) : PortConfig :=
  { encoding := encoding
    videoWidth := VCOS_ALIGN_UP width 32
    videoHeight := VCOS_ALIGN_UP height 16
    cropX := 0
    cropY := 0
    cropWidth := width
    cropHeight := height }

/-- `config_port_crop` (`src/mmal.c:210`): video size aligned up from the
actual size, crop = the given crop size at (0,0). -/
def config_port_crop (encoding actualWidth actualHeight cropWidth cropHeight :
    Nat) : PortConfig :=
  { encoding := encoding
    videoWidth := VCOS_ALIGN_UP actualWidth 32
    videoHeight := VCOS_ALIGN_UP actualHeight 16
    cropX := 0
    cropY := 0
    cropWidth := cropWidth
    cropHeight := cropHeight }

/-- Names for the ports the builder configures, per camera. -/
inductive PortId where
  | cameraPreview
  | cameraOutput
  | rawcamOutput
  | splitterInput
  | nullInput
  | splitterOutput (j : Nat)
  | ispInput (j : Nat)
  | ispOutput (j : Nat)
  | renderInput (j : Nat)
deriving DecidableEq, Repr

/-- The ports `setup_cp_camera` (`src/mmal.c:766`) configures: the
preview port (only when it is set up to feed the null sink, i.e. when the
dedicated capture port is in use) and the chosen camera output port, both
at the shared upstream size. -/
def setup_cp_camera_ports (setupPreviewPortForNull : Bool) (width height : Nat) :
    List (PortId × PortConfig) :=
  (if setupPreviewPortForNull then
    [(PortId.cameraPreview, config_port MMAL_ENCODING_OPAQ width height)]
   else []) ++
  [(PortId.cameraOutput, config_port MMAL_ENCODING_RGB24 width height)]

/-- The port `setup_cp_camera_rawcam` (`src/mmal.c:661`) configures:
rawcam output 0, raw encoding, shared upstream size. -/
def setup_cp_camera_rawcam_ports (cfg : CamerasConfig) (width height : Nat) :
    List (PortId × PortConfig) :=
  [(PortId.rawcamOutput, config_port cfg.rawEncoding width height)]

/-- The ports `setup_cp_splitter` (`src/mmal.c:942`) configures: input 0
at the shared upstream size, and outputs `0..len-1` with the actual size
kept at the upstream size and the crop scaled by
`output_width * (width / output_width)` (integer division), likewise for
the height. -/
def setup_cp_splitter_ports (cfg : CamerasConfig) (len width height : Nat) :
    List (PortId × PortConfig) :=
  (PortId.splitterInput, config_port MMAL_ENCODING_RGB24 width height) ::
  (List.range len).map (fun j =>
    (PortId.splitterOutput j,
     config_port_crop MMAL_ENCODING_RGB24 width height
       ((cfg.isp j).width * (width / (cfg.isp j).width))
       ((cfg.isp j).height * (height / (cfg.isp j).height))))

/-- The port `setup_cp_null` (`src/mmal.c:873`) configures: the null
sink's input at the shared upstream size. -/
def setup_cp_null_ports (width height : Nat) : List (PortId × PortConfig) :=
  [(PortId.nullInput, config_port MMAL_ENCODING_OPAQ width height)]

/-- The ports `setup_cp_isp` (`src/mmal.c:1079`) configures: input 0 with
the same crop formula as the matching splitter output, output 0 at the
slot's exact requested size and encoding. -/
def setup_cp_isp_ports (cfg : CamerasConfig) (j width height : Nat) :
    List (PortId × PortConfig) :=
  [(PortId.ispInput j,
    config_port_crop MMAL_ENCODING_RGB24 width height
      ((cfg.isp j).width * (width / (cfg.isp j).width))
      ((cfg.isp j).height * (height / (cfg.isp j).height))),
   (PortId.ispOutput j,
    config_port (cfg.isp j).encoding (cfg.isp j).width (cfg.isp j).height)]

/-- The port `setup_cp_render` (`src/mmal.c:1182`) configures: the render
input at the slot's exact requested size and encoding. -/
def setup_cp_render_ports (cfg : CamerasConfig) (j : Nat) :
    List (PortId × PortConfig) :=
  [(PortId.renderInput j,
    config_port (cfg.isp j).encoding (cfg.isp j).width (cfg.isp j).height)]

/-- The maximum requested width over a camera's output slots, as computed
by the loop in `rpigrafx_finish_config` (`src/mmal.c:1406`):
`max_width = 0; for (j = 0; j < len; j++) max_width = MMAL_MAX(...)`. -/
def maxRequestedWidth (cfg : CamerasConfig) : Nat :=
  (List.range cfg.nextOutputIdx).foldl (fun acc j => max acc (cfg.isp j).width) 0

/-- The maximum requested height over a camera's output slots (see
`maxRequestedWidth`). -/
def maxRequestedHeight (cfg : CamerasConfig) : Nat :=
  (List.range cfg.nextOutputIdx).foldl (fun acc j => max acc (cfg.isp j).height) 0

/-- The magnification applied for a rawcam (IMX219, the only supported
model) in `rpigrafx_finish_config` (`src/mmal.c:1415`):
`mag = MMAL_MIN(cfg->max_width / max_width, cfg->max_height / max_height)`
(integer division). -/
def rawcamMag (cfg : CamerasConfig) (maxW maxH : Nat) : Nat :=
  min (cfg.maxWidth / maxW) (cfg.maxHeight / maxH)

/-- The shared upstream frame size `rpigrafx_finish_config` computes for
one used camera and stores into `cfg->width`/`cfg->height`
(`src/mmal.c:1406`–`1425`): the component-wise maximum over the slots,
multiplied by `rawcamMag` when the camera is a rawcam. -/
def upstreamSize (cfg : CamerasConfig) : Nat × Nat :=
  let maxW := maxRequestedWidth cfg
  let maxH := maxRequestedHeight cfg
  if cfg.isRawcam then
    let mag := rawcamMag cfg maxW maxH
    (maxW * mag, maxH * mag)
  else (maxW, maxH)

/-- All the ports `rpigrafx_finish_config` (`src/mmal.c:1390`) configures
for one used camera, in build order: source (rawcam or camera, the latter
with the preview port tied off when the dedicated capture port is used),
splitter, null sink (capture-port case), then per slot the isp and the
render. -/
def rpigrafx_finish_config_ports (cfg : CamerasConfig) :
    List (PortId × PortConfig) :=
  let len := cfg.nextOutputIdx
  let wh := upstreamSize cfg
  (if cfg.isRawcam then setup_cp_camera_rawcam_ports cfg wh.1 wh.2
   else setup_cp_camera_ports cfg.useCameraCapturePort wh.1 wh.2) ++
  setup_cp_splitter_ports cfg len wh.1 wh.2 ++
  (if cfg.useCameraCapturePort then setup_cp_null_ports wh.1 wh.2 else []) ++
  (List.range len).flatMap (fun j =>
    setup_cp_isp_ports cfg j wh.1 wh.2 ++ setup_cp_render_ports cfg j)

/-- The camera-config fields `rpigrafx_finish_config` writes:
`cfg->width`/`cfg->height` become the shared upstream size. -/
def rpigrafx_finish_config_cfg (cfg : CamerasConfig) : CamerasConfig :=
  { cfg with width := (upstreamSize cfg).1, height := (upstreamSize cfg).2 }

/-- The connection mode of an `mmal_connection_create` call:
`MMAL_CONNECTION_FLAG_TUNNELLING` or flags 0 (a pool-backed connection
with an application-visible pool and queue). -/
inductive ConnMode where
  | tunnelled
  | poolBacked
deriving DecidableEq, Repr

/-- Names for the connections `connect_ports` creates, per camera. -/
inductive EdgeId where
  | cameraNull
  | cameraSplitter
  | splitterIsp (j : Nat)
  | ispRender (j : Nat)
deriving DecidableEq, Repr

/-- The connections `connect_ports` (`src/mmal.c:1266`) creates for one
camera, with their modes: camera preview → null (tunnelled, only with
the dedicated capture port), camera → splitter (tunnelled, only when not
rawcam), and per slot splitter → isp (tunnelled, in both the rawcam and
non-rawcam branches) and isp → render (flags 0, pool-backed). -/
def connect_ports (cfg : CamerasConfig) (len : Nat) :
    List (EdgeId × ConnMode) :=
  (if cfg.useCameraCapturePort then [(EdgeId.cameraNull, ConnMode.tunnelled)]
   else []) ++
  (if ¬ cfg.isRawcam then [(EdgeId.cameraSplitter, ConnMode.tunnelled)]
   else []) ++
  (List.range len).flatMap (fun j =>
    [(EdgeId.splitterIsp j, ConnMode.tunnelled),
     (EdgeId.ispRender j, ConnMode.poolBacked)])

/-- The host-side row stride used by the rawcam branch of
`rpigrafx_capture_next_frame` (`src/mmal.c:1489`):
`stride = ALIGN_UP(width, 32)` where `width = cfg->width`. -/
def capture_next_frame_stride (cfg : CamerasConfig) : Nat :=
  ALIGN_UP cfg.width 32

/-- A fresh one-camera configuration used as a concrete test state:
camera 0 with hardware maximum 1000×800, nothing requested yet. -/
def sampleCamera : CamerasConfig :=
  ⟨false, 0, 0, 1000, 800, false, 0, fun _ => ⟨0, 0, 0, false⟩, false, 0⟩

/-- One `rpigrafx_config_camera_frame` request of a 100×100 output on
camera 0 of a one-camera system, with a succeeding allocation. -/
def configStep (cfg : CamerasConfig) :
    Nat × CamerasConfig × Option FrameConfig :=
  rpigrafx_config_camera_frame 1 0 100 100 7 false cfg true

/-- A concrete configured rawcam camera: hardware maximum 3280×2464
(IMX219), one 640×480 output slot requested. -/
def sampleRawCamera : CamerasConfig :=
  ⟨true, 0, 0, 3280, 2464, false, 1, fun _ => ⟨640, 480, 0, false⟩, true, 9⟩

/-- A concrete processed-mode camera with two output slots, 512×300 and
1280×720, so the shared maximum 1280×720 is not a multiple of the first
slot's size (exercising the truncating crop formula). -/
def sampleTwoSlotCamera : CamerasConfig :=
  ⟨true, 0, 0, 1920, 1080, false, 2,
   fun k => if k = 0 then ⟨512, 300, 7, false⟩ else ⟨1280, 720, 7, false⟩,
   false, 0⟩

/-! ## Basic lemmas about the capture state machine -/

lemma free_frame_none (ctx : CallbackContext) (w : MmalWorld)
    (h : ctx.header = none) : rpigrafx_free_frame ctx w = (0, ctx, w) := by
  simp [rpigrafx_free_frame, h]

lemma free_frame_passed (ctx : CallbackContext) (w : MmalWorld)
    (h : ctx.isHeaderPassedToRender = true) :
    rpigrafx_free_frame ctx w = (0, ctx, w) := by
  cases hh : ctx.header <;> simp [rpigrafx_free_frame, hh, h]

lemma free_frame_held (ctx : CallbackContext) (w : MmalWorld) (b : Buffer)
    (hb : ctx.header = some b) (hf : ctx.isHeaderPassedToRender = false) :
    rpigrafx_free_frame ctx w =
      (0, { ctx with header := none, isHeaderPassedToRender := false },
       { w with released := w.released ++ [b] }) := by
  simp [rpigrafx_free_frame, hb, hf]

lemma free_frame_eta (ctx : CallbackContext) (w : MmalWorld) :
    ∃ ctx1 w1, rpigrafx_free_frame ctx w = (0, ctx1, w1) := by
  cases hh : ctx.header with
  | none => exact ⟨ctx, w, free_frame_none ctx w hh⟩
  | some b =>
    cases hf : ctx.isHeaderPassedToRender with
    | true => exact ⟨ctx, w, free_frame_passed ctx w hf⟩
    | false => exact ⟨_, _, free_frame_held ctx w b hh hf⟩

lemma captureWaitLoop_length_pos (q : List Buffer) (w : MmalWorld)
    (h : Buffer) (w2 : MmalWorld)
    (heq : captureWaitLoop q w = some (h, w2)) : h.length ≠ 0 := by
  induction q generalizing w with
  | nil => simp [captureWaitLoop] at heq
  | cons a rest ih =>
    by_cases ha : a.length = 0
    · rw [captureWaitLoop] at heq
      simp only [ha, if_true] at heq
      exact ih _ heq
    · rw [captureWaitLoop] at heq
      simp only [ha, if_false] at heq
      obtain ⟨h1, _⟩ := Prod.mk.injEq .. ▸ Option.some.injEq .. ▸ heq
      exact h1 ▸ ha

lemma captureWaitLoop_released_mono (q : List Buffer) (w : MmalWorld)
    (h : Buffer) (w2 : MmalWorld)
    (heq : captureWaitLoop q w = some (h, w2)) :
    ∃ t, w2.released = w.released ++ t := by
  induction q generalizing w with
  | nil => simp [captureWaitLoop] at heq
  | cons a rest ih =>
    by_cases ha : a.length = 0
    · rw [captureWaitLoop] at heq
      simp only [ha, if_true] at heq
      obtain ⟨t, ht⟩ := ih _ heq
      exact ⟨a :: t, by simpa [drainPool] using ht⟩
    · rw [captureWaitLoop] at heq
      simp only [ha, if_false, Option.some.injEq, Prod.mk.injEq] at heq
      exact ⟨[], by simp [← heq.2, drainPool]⟩

/-! ## Claims about the frame-lifecycle state machine -/

/-- C1 (counterexample): the auto-release safety net of
`rpigrafx_capture_next_frame` does NOT hold in all states.  Concrete run:
capture buffer 1, hand it to the render, then call capture twice in a row
with no intervening release or handoff.  The second of those captures
must, per the claim, release buffer 2 (which was neither released nor
handed off) — but `is_header_passed_to_render` is still set from the
handoff of buffer 1 (capture never clears it), so `rpigrafx_free_frame`
is a no-op and buffer 2 is simply overwritten: the final world shows it
was neither released nor sent to the render port. -/
theorem claim1_counterexample :
    rpigrafx_capture_next_frame false true ⟨none, false, true⟩
        ⟨[], [⟨1, 100⟩, ⟨2, 100⟩, ⟨3, 100⟩], [], [], []⟩
      = some (0, ⟨some ⟨1, 100⟩, false, true⟩,
              ⟨[], [⟨2, 100⟩, ⟨3, 100⟩], [], [], []⟩) ∧
    rpigrafx_render_frame true ⟨some ⟨1, 100⟩, false, true⟩
        ⟨[], [⟨2, 100⟩, ⟨3, 100⟩], [], [], []⟩
      = (0, ⟨some ⟨1, 100⟩, true, true⟩,
         ⟨[], [⟨2, 100⟩, ⟨3, 100⟩], [], [some ⟨1, 100⟩], []⟩) ∧
    rpigrafx_capture_next_frame false true ⟨some ⟨1, 100⟩, true, true⟩
        ⟨[], [⟨2, 100⟩, ⟨3, 100⟩], [], [some ⟨1, 100⟩], []⟩
      = some (0, ⟨some ⟨2, 100⟩, true, true⟩,
              ⟨[], [⟨3, 100⟩], [], [some ⟨1, 100⟩], []⟩) ∧
    rpigrafx_capture_next_frame false true ⟨some ⟨2, 100⟩, true, true⟩
        ⟨[], [⟨3, 100⟩], [], [some ⟨1, 100⟩], []⟩
      = some (0, ⟨some ⟨3, 100⟩, true, true⟩,
              ⟨[], [], [], [some ⟨1, 100⟩], []⟩) ∧
    (⟨2, 100⟩ : Buffer) ∉
      (⟨[], [], [], [some ⟨1, 100⟩], []⟩ : MmalWorld).released ∧
    some (⟨2, 100⟩ : Buffer) ∉
      (⟨[], [], [], [some ⟨1, 100⟩], []⟩ : MmalWorld).sentToRenderPort := by
  decide

/-- C1 (amended): `rpigrafx_capture_next_frame` releases the previously
held buffer whenever the context's handed-off flag is unset — so in any
history with no handoff, two consecutive captures release the first
buffer.  After a `rpigrafx_render_frame` handoff the flag stays set
(capture never clears it when storing a new buffer), so a later capture
overwrites the held buffer without releasing it. -/
theorem claim1_auto_release (u a : Bool) (ctx : CallbackContext)
    (w : MmalWorld) (b : Buffer) (ctx' : CallbackContext) (w' : MmalWorld)
    (hb : ctx.header = some b) (hf : ctx.isHeaderPassedToRender = false)
    (hcap : rpigrafx_capture_next_frame u a ctx w = some (0, ctx', w')) :
    b ∈ w'.released := by
  unfold rpigrafx_capture_next_frame at hcap
  by_cases harm : u ∧ ¬ a
  · simp [harm] at hcap
  · rw [if_neg harm, free_frame_held ctx w b hb hf] at hcap
    simp only [ne_eq, not_true_eq_false, if_false, ite_false,
      reduceCtorEq] at hcap
    cases hloop : captureWaitLoop
        ({ w with released := w.released ++ [b] } : MmalWorld).connQueue
        { w with released := w.released ++ [b] } with
    | none => rw [hloop] at hcap; simp at hcap
    | some p =>
      obtain ⟨h, w2⟩ := p
      rw [hloop] at hcap
      simp only [Option.some.injEq, Prod.mk.injEq] at hcap
      obtain ⟨-, -, hw⟩ := hcap
      obtain ⟨t, ht⟩ := captureWaitLoop_released_mono _ _ _ _ hloop
      rw [← hw]
      rw [ht]
      simp

/-- C1 (amended, witness): a concrete held, not-handed-off buffer ⟨5,7⟩
is in the released list after the next capture. -/
theorem claim1_auto_release_witness :
    (⟨5, 7⟩ : Buffer) ∈ (⟨[], [], [], [], [⟨5, 7⟩]⟩ : MmalWorld).released :=
  claim1_auto_release false true ⟨some ⟨5, 7⟩, false, true⟩
    ⟨[], [⟨9, 4⟩], [], [], []⟩ ⟨5, 7⟩ ⟨some ⟨9, 4⟩, false, true⟩
    ⟨[], [], [], [], [⟨5, 7⟩]⟩ rfl rfl (by decide)

/-- C2: `rpigrafx_free_frame` is a no-op returning 0 when no buffer is
held or the buffer was handed off; it is idempotent (a second call after
any first call is a no-op returning 0); and after a successful
`rpigrafx_render_frame` handoff, `rpigrafx_free_frame` is a no-op and the
handoff-then-release sequence releases no buffer. -/
theorem claim2_free_frame_noop_idempotent :
    (∀ (ctx : CallbackContext) (w : MmalWorld),
      ctx.header = none ∨ ctx.isHeaderPassedToRender = true →
      rpigrafx_free_frame ctx w = (0, ctx, w)) ∧
    (∀ (ctx : CallbackContext) (w : MmalWorld) (r : Nat)
       (ctx1 : CallbackContext) (w1 : MmalWorld),
      rpigrafx_free_frame ctx w = (r, ctx1, w1) →
      rpigrafx_free_frame ctx1 w1 = (0, ctx1, w1)) ∧
    (∀ (ctx : CallbackContext) (w : MmalWorld) (r : Nat)
       (ctx1 : CallbackContext) (w1 : MmalWorld),
      ctx.statusSuccess = true →
      rpigrafx_render_frame true ctx w = (r, ctx1, w1) →
      rpigrafx_free_frame ctx1 w1 = (0, ctx1, w1) ∧
      w1.released = w.released) := by
  refine ⟨?_, ?_, ?_⟩
  · rintro ctx w (h | h)
    · exact free_frame_none ctx w h
    · exact free_frame_passed ctx w h
  · intro ctx w r ctx1 w1 hfree
    cases hh : ctx.header with
    | none =>
      rw [free_frame_none ctx w hh] at hfree
      simp only [Prod.mk.injEq] at hfree
      obtain ⟨-, rfl, rfl⟩ := hfree
      exact free_frame_none ctx w hh
    | some b =>
      cases hf : ctx.isHeaderPassedToRender with
      | true =>
        rw [free_frame_passed ctx w hf] at hfree
        simp only [Prod.mk.injEq] at hfree
        obtain ⟨-, rfl, rfl⟩ := hfree
        exact free_frame_passed ctx w hf
      | false =>
        rw [free_frame_held ctx w b hh hf] at hfree
        simp only [Prod.mk.injEq] at hfree
        obtain ⟨-, rfl, rfl⟩ := hfree
        exact free_frame_none _ _ rfl
  · intro ctx w r ctx1 w1 hst hrend
    unfold rpigrafx_render_frame at hrend
    simp only [hst, not_true_eq_false, if_false, not_false_eq_true,
      ite_false, ite_true, Bool.not_true] at hrend
    simp only [Prod.mk.injEq] at hrend
    obtain ⟨-, rfl, rfl⟩ := hrend
    exact ⟨free_frame_passed _ _ rfl, rfl⟩

/-- C2 (witness): handoff of a held buffer ⟨1,5⟩ then release — the
release is a no-op and nothing was ever released. -/
theorem claim2_witness :
    rpigrafx_free_frame ⟨some ⟨1, 5⟩, true, true⟩
        ⟨[], [], [], [some ⟨1, 5⟩], []⟩
      = (0, ⟨some ⟨1, 5⟩, true, true⟩, ⟨[], [], [], [some ⟨1, 5⟩], []⟩) ∧
    (⟨[], [], [], [some ⟨1, 5⟩], []⟩ : MmalWorld).released
      = (⟨[], [], [], [], []⟩ : MmalWorld).released :=
  claim2_free_frame_noop_idempotent.2.2 ⟨some ⟨1, 5⟩, false, true⟩
    ⟨[], [], [], [], []⟩ 0 ⟨some ⟨1, 5⟩, true, true⟩
    ⟨[], [], [], [some ⟨1, 5⟩], []⟩ rfl (by decide)

/-- C3: a successful `rpigrafx_capture_next_frame` never stores a
zero-length buffer (every zero-length delivery is released and the wait
repeated), and the concrete delivery sequence [empty, empty, full] yields
one successful capture holding the full buffer with both empties
released. -/
theorem claim3_no_empty_buffer_stored :
    (∀ (u a : Bool) (ctx ctx' : CallbackContext) (w w' : MmalWorld),
      rpigrafx_capture_next_frame u a ctx w = some (0, ctx', w') →
      ∃ b, ctx'.header = some b ∧ b.length ≠ 0) ∧
    rpigrafx_capture_next_frame false true ⟨none, false, true⟩
        ⟨[], [⟨1, 0⟩, ⟨2, 0⟩, ⟨3, 100⟩], [], [], []⟩
      = some (0, ⟨some ⟨3, 100⟩, false, true⟩,
              ⟨[], [], [], [], [⟨1, 0⟩, ⟨2, 0⟩]⟩) := by
  constructor
  · intro u a ctx ctx' w w' hcap
    unfold rpigrafx_capture_next_frame at hcap
    by_cases harm : u ∧ ¬ a
    · simp [harm] at hcap
    · obtain ⟨ctx1, w1, hfe⟩ := free_frame_eta ctx w
      rw [if_neg harm, hfe] at hcap
      simp only [ne_eq, not_true_eq_false, if_false, ite_false,
        reduceCtorEq] at hcap
      cases hloop : captureWaitLoop w1.connQueue w1 with
      | none => rw [hloop] at hcap; simp at hcap
      | some p =>
        obtain ⟨h, w2⟩ := p
        rw [hloop] at hcap
        simp only [Option.some.injEq, Prod.mk.injEq] at hcap
        obtain ⟨-, hctx, -⟩ := hcap
        exact ⟨h, by rw [← hctx],
               captureWaitLoop_length_pos _ _ _ _ hloop⟩
  · decide

/-- C3 (witness): the buffer stored by the [empty, empty, full] scenario
is full (non-zero length). -/
theorem claim3_witness :
    ∃ b, (⟨some ⟨3, 100⟩, false, true⟩ : CallbackContext).header = some b ∧
      b.length ≠ 0 :=
  claim3_no_empty_buffer_stored.1 false true ⟨none, false, true⟩
    ⟨some ⟨3, 100⟩, false, true⟩
    ⟨[], [⟨1, 0⟩, ⟨2, 0⟩, ⟨3, 100⟩], [], [], []⟩
    ⟨[], [], [], [], [⟨1, 0⟩, ⟨2, 0⟩]⟩ (by decide)

/-- C6 (code evaluated at the failing input): when the buffer submission
to the render port fails (`mmal_port_send_buffer` not successful),
`rpigrafx_render_frame` still returns 0 — the source's send-failure
branch does `goto end` without `ret = 1` — and the context is NOT marked
handed-off, contradicting the claim that every failure is reported and
that success implies the handed-off mark. -/
theorem claim6_send_failure_not_reported :
    rpigrafx_render_frame false ⟨some ⟨1, 10⟩, false, true⟩
        ⟨[], [], [], [], []⟩
      = (0, ⟨some ⟨1, 10⟩, false, true⟩,
         ⟨[], [], [], [some ⟨1, 10⟩], []⟩) := by
  decide

/-! ## Claims about configuration -/

/-- C4: with a succeeding context allocation,
`rpigrafx_config_camera_frame` returns an error exactly when the camera
index is at least the number of cameras, the width or height exceeds the
camera's maximum, or the camera already holds
`NUM_SPLITTER_OUTPUTS - 1 = 3` output slots; every success appends a slot
and returns a handle.  Concretely, on one fresh camera the 3rd request
succeeds and the 4th fails. -/
theorem claim4_request_error_iff :
    (∀ (numCameras cameraNumber width height encoding : Nat) (zc : Bool)
       (cfg : CamerasConfig),
      ((rpigrafx_config_camera_frame numCameras cameraNumber width height
          encoding zc cfg true).1 ≠ 0 ↔
        cameraNumber ≥ numCameras ∨ width > cfg.maxWidth ∨
        height > cfg.maxHeight ∨
        cfg.nextOutputIdx = NUM_SPLITTER_OUTPUTS - 1) ∧
      ((rpigrafx_config_camera_frame numCameras cameraNumber width height
          encoding zc cfg true).1 = 0 →
        (rpigrafx_config_camera_frame numCameras cameraNumber width height
          encoding zc cfg true).2.1.nextOutputIdx = cfg.nextOutputIdx + 1 ∧
        (rpigrafx_config_camera_frame numCameras cameraNumber width height
          encoding zc cfg true).2.2 ≠ none)) ∧
    (configStep ((configStep ((configStep sampleCamera).2.1)).2.1)).1 = 0 ∧
    (configStep ((configStep ((configStep
        ((configStep sampleCamera).2.1)).2.1)).2.1)).1 = 1 := by
  refine ⟨?_, by decide, by decide⟩
  intro n c wd ht e zc cfg
  by_cases h1 : c ≥ n
  · simp [rpigrafx_config_camera_frame, h1]
  · by_cases h2 : wd > cfg.maxWidth
    · simp [rpigrafx_config_camera_frame, h1, h2]
    · by_cases h3 : ht > cfg.maxHeight
      · simp [rpigrafx_config_camera_frame, h1, h2, h3]
      · by_cases h4 : cfg.nextOutputIdx = NUM_SPLITTER_OUTPUTS - 1
        · simp [rpigrafx_config_camera_frame, h1, h2, h3, h4]
        · simp [rpigrafx_config_camera_frame, h1, h2, h3, h4]

/-- C4 (witness): a successful request on the fresh sample camera appends
a slot and yields a handle. -/
theorem claim4_witness :
    (rpigrafx_config_camera_frame 1 0 100 100 7 false sampleCamera
      true).2.1.nextOutputIdx = sampleCamera.nextOutputIdx + 1 ∧
    (rpigrafx_config_camera_frame 1 0 100 100 7 false sampleCamera
      true).2.2 ≠ none :=
  (claim4_request_error_iff.1 1 0 100 100 7 false sampleCamera).2 (by decide)

/-- C5 (counterexample): when the context allocation (`malloc`) fails,
`rpigrafx_config_camera_frame` returns an error, yet the camera HAS been
newly marked used and an output slot HAS been appended
(`next_output_idx` incremented) — contradicting the claim that these
happen only on success. -/
theorem claim5_counterexample :
    (rpigrafx_config_camera_frame 1 0 100 100 7 false sampleCamera
      false).1 = 1 ∧
    (rpigrafx_config_camera_frame 1 0 100 100 7 false sampleCamera
      false).2.1.nextOutputIdx = sampleCamera.nextOutputIdx + 1 ∧
    (rpigrafx_config_camera_frame 1 0 100 100 7 false sampleCamera
      false).2.1.isUsed = true ∧
    sampleCamera.isUsed = false ∧
    (rpigrafx_config_camera_frame 1 0 100 100 7 false sampleCamera
      false).2.2 = none := by
  decide

/-- C5 (amended): a failure of the camera-index or resolution checks
leaves the configuration unchanged; a capacity (`TooManyOutputs`) failure
changes nothing except (re)setting `is_used` — in particular
`next_output_idx` and the slots are unchanged and no context is
allocated; the handle is returned exactly on success; but a
context-allocation failure returns an error AFTER appending the slot and
marking the camera used. -/
theorem claim5_failure_scope (numCameras cameraNumber width height
    encoding : Nat) (zc mallocOk : Bool) (cfg : CamerasConfig) :
    ((cameraNumber ≥ numCameras ∨ width > cfg.maxWidth ∨
      height > cfg.maxHeight) →
      rpigrafx_config_camera_frame numCameras cameraNumber width height
        encoding zc cfg mallocOk = (1, cfg, none)) ∧
    (¬ (cameraNumber ≥ numCameras ∨ width > cfg.maxWidth ∨
        height > cfg.maxHeight) →
     cfg.nextOutputIdx = NUM_SPLITTER_OUTPUTS - 1 →
      rpigrafx_config_camera_frame numCameras cameraNumber width height
        encoding zc cfg mallocOk = (1, { cfg with isUsed := true }, none)) ∧
    ((rpigrafx_config_camera_frame numCameras cameraNumber width height
        encoding zc cfg mallocOk).2.2 ≠ none ↔
      (rpigrafx_config_camera_frame numCameras cameraNumber width height
        encoding zc cfg mallocOk).1 = 0) ∧
    (¬ (cameraNumber ≥ numCameras ∨ width > cfg.maxWidth ∨
        height > cfg.maxHeight) →
     cfg.nextOutputIdx ≠ NUM_SPLITTER_OUTPUTS - 1 → mallocOk = false →
      (rpigrafx_config_camera_frame numCameras cameraNumber width height
        encoding zc cfg mallocOk).1 = 1 ∧
      (rpigrafx_config_camera_frame numCameras cameraNumber width height
        encoding zc cfg mallocOk).2.1.nextOutputIdx
        = cfg.nextOutputIdx + 1 ∧
      (rpigrafx_config_camera_frame numCameras cameraNumber width height
        encoding zc cfg mallocOk).2.1.isUsed = true ∧
      (rpigrafx_config_camera_frame numCameras cameraNumber width height
        encoding zc cfg mallocOk).2.2 = none) := by
  refine ⟨?_, ?_, ?_, ?_⟩
  · intro h
    by_cases h1 : cameraNumber ≥ numCameras
    · simp [rpigrafx_config_camera_frame, h1]
    · by_cases h2 : width > cfg.maxWidth
      · simp [rpigrafx_config_camera_frame, h1, h2]
      · by_cases h3 : height > cfg.maxHeight
        · simp [rpigrafx_config_camera_frame, h1, h2, h3]
        · rcases h with h | h | h <;> contradiction
  · intro h h4
    push_neg at h
    obtain ⟨h1, h2, h3⟩ := h
    simp [rpigrafx_config_camera_frame, not_le.mpr h1, h4,
      not_lt.mpr h2, not_lt.mpr h3]
  · by_cases h1 : cameraNumber ≥ numCameras
    · simp [rpigrafx_config_camera_frame, h1]
    · by_cases h2 : width > cfg.maxWidth
      · simp [rpigrafx_config_camera_frame, h1, h2]
      · by_cases h3 : height > cfg.maxHeight
        · simp [rpigrafx_config_camera_frame, h1, h2, h3]
        · by_cases h4 : cfg.nextOutputIdx = NUM_SPLITTER_OUTPUTS - 1
          · simp [rpigrafx_config_camera_frame, h1, h2, h3, h4]
          · cases mallocOk <;>
              simp [rpigrafx_config_camera_frame, h1, h2, h3, h4]
  · intro h h4 hm
    push_neg at h
    obtain ⟨h1, h2, h3⟩ := h
    subst hm
    simp [rpigrafx_config_camera_frame, not_le.mpr h1, h4,
      not_lt.mpr h2, not_lt.mpr h3]

/-- C5 (amended, witness): a capacity failure on a full camera leaves
everything but `is_used` unchanged and allocates no context. -/
theorem claim5_witness :
    rpigrafx_config_camera_frame 1 0 100 100 7 false
        { sampleCamera with nextOutputIdx := 3 } true
      = (1, { { sampleCamera with nextOutputIdx := 3 } with
              isUsed := true }, none) :=
  (claim5_failure_scope 1 0 100 100 7 false true
    { sampleCamera with nextOutputIdx := 3 }).2.1 (by decide) rfl

/-! ## Claims about the pipeline graph -/

lemma connect_ports_mem (cfg : CamerasConfig) (len : Nat)
    (e : EdgeId × ConnMode) :
    e ∈ connect_ports cfg len ↔
      (cfg.useCameraCapturePort = true ∧
        e = (EdgeId.cameraNull, ConnMode.tunnelled)) ∨
      (cfg.isRawcam = false ∧
        e = (EdgeId.cameraSplitter, ConnMode.tunnelled)) ∨
      (∃ j, j < len ∧
        (e = (EdgeId.splitterIsp j, ConnMode.tunnelled) ∨
         e = (EdgeId.ispRender j, ConnMode.poolBacked))) := by
  cases hcap : cfg.useCameraCapturePort <;> cases hraw : cfg.isRawcam <;>
    simp [connect_ports, hcap, hraw, List.mem_append, List.mem_flatMap,
      List.mem_range]

/-- C7: for a processed-mode (non-rawcam) camera, the isp→render
(converter→sink) connections are exactly the pool-backed ones: camera →
splitter, splitter → each isp, and (with the dedicated capture port) the
preview → null-sink connection are all created tunnelled, and all of
them are present in the built graph. -/
theorem claim7_pool_backed_only_isp_render (cfg : CamerasConfig) (len : Nat)
    (hraw : cfg.isRawcam = false) :
    (∀ e ∈ connect_ports cfg len,
      e.2 = ConnMode.poolBacked ↔ ∃ j, e.1 = EdgeId.ispRender j) ∧
    (EdgeId.cameraSplitter, ConnMode.tunnelled) ∈ connect_ports cfg len ∧
    (cfg.useCameraCapturePort = true →
      (EdgeId.cameraNull, ConnMode.tunnelled) ∈ connect_ports cfg len) ∧
    (∀ j, j < len →
      (EdgeId.splitterIsp j, ConnMode.tunnelled) ∈ connect_ports cfg len ∧
      (EdgeId.ispRender j, ConnMode.poolBacked) ∈ connect_ports cfg len) := by
  refine ⟨?_, ?_, ?_, ?_⟩
  · intro e he
    rw [connect_ports_mem] at he
    rcases he with ⟨-, rfl⟩ | ⟨-, rfl⟩ | ⟨j, -, rfl | rfl⟩ <;> simp
  · exact (connect_ports_mem cfg len _).mpr (Or.inr (Or.inl ⟨hraw, rfl⟩))
  · intro hcap
    exact (connect_ports_mem cfg len _).mpr (Or.inl ⟨hcap, rfl⟩)
  · intro j hj
    exact ⟨(connect_ports_mem cfg len _).mpr
             (Or.inr (Or.inr ⟨j, hj, Or.inl rfl⟩)),
           (connect_ports_mem cfg len _).mpr
             (Or.inr (Or.inr ⟨j, hj, Or.inr rfl⟩))⟩

/-- C7 (witness): the camera→splitter edge of a concrete two-slot
processed camera is tunnelled and present. -/
theorem claim7_witness :
    (EdgeId.cameraSplitter, ConnMode.tunnelled) ∈
      connect_ports sampleTwoSlotCamera 2 :=
  (claim7_pool_backed_only_isp_render sampleTwoSlotCamera 2 rfl).2.1

lemma mem_ports_splitterInput (cfg : CamerasConfig) :
    (PortId.splitterInput,
      config_port MMAL_ENCODING_RGB24 (upstreamSize cfg).1
        (upstreamSize cfg).2) ∈ rpigrafx_finish_config_ports cfg := by
  unfold rpigrafx_finish_config_ports setup_cp_splitter_ports
  exact List.mem_append_left _ (List.mem_append_left _
    (List.mem_append_right _ (List.mem_cons_self _ _)))

lemma mem_ports_cameraOutput (cfg : CamerasConfig)
    (hraw : cfg.isRawcam = false) :
    (PortId.cameraOutput,
      config_port MMAL_ENCODING_RGB24 (upstreamSize cfg).1
        (upstreamSize cfg).2) ∈ rpigrafx_finish_config_ports cfg := by
  unfold rpigrafx_finish_config_ports setup_cp_camera_ports
  rw [hraw]
  refine List.mem_append_left _ (List.mem_append_left _
    (List.mem_append_left _ ?_))
  simp

lemma mem_ports_rawcamOutput (cfg : CamerasConfig)
    (hraw : cfg.isRawcam = true) :
    (PortId.rawcamOutput,
      config_port cfg.rawEncoding (upstreamSize cfg).1
        (upstreamSize cfg).2) ∈ rpigrafx_finish_config_ports cfg := by
  unfold rpigrafx_finish_config_ports setup_cp_camera_rawcam_ports
  rw [hraw]
  exact List.mem_append_left _ (List.mem_append_left _
    (List.mem_append_left _ (by simp)))

lemma mem_ports_splitterOutput (cfg : CamerasConfig) (j : Nat)
    (hj : j < cfg.nextOutputIdx) :
    (PortId.splitterOutput j,
      config_port_crop MMAL_ENCODING_RGB24 (upstreamSize cfg).1
        (upstreamSize cfg).2
        ((cfg.isp j).width * ((upstreamSize cfg).1 / (cfg.isp j).width))
        ((cfg.isp j).height * ((upstreamSize cfg).2 / (cfg.isp j).height)))
      ∈ rpigrafx_finish_config_ports cfg := by
  unfold rpigrafx_finish_config_ports setup_cp_splitter_ports
  refine List.mem_append_left _ (List.mem_append_left _
    (List.mem_append_right _ (List.mem_cons_of_mem _ ?_)))
  exact List.mem_map_of_mem _ (List.mem_range.mpr hj)

lemma mem_ports_ispInput (cfg : CamerasConfig) (j : Nat)
    (hj : j < cfg.nextOutputIdx) :
    (PortId.ispInput j,
      config_port_crop MMAL_ENCODING_RGB24 (upstreamSize cfg).1
        (upstreamSize cfg).2
        ((cfg.isp j).width * ((upstreamSize cfg).1 / (cfg.isp j).width))
        ((cfg.isp j).height * ((upstreamSize cfg).2 / (cfg.isp j).height)))
      ∈ rpigrafx_finish_config_ports cfg := by
  unfold rpigrafx_finish_config_ports setup_cp_isp_ports
  refine List.mem_append_right _ (List.mem_flatMap.mpr
    ⟨j, List.mem_range.mpr hj, ?_⟩)
  simp [setup_cp_render_ports]

lemma crop_le (sw W : Nat) : sw * (W / sw) ≤ W := by
  rw [Nat.mul_comm]
  exact Nat.div_mul_le_self W sw

lemma config_port_aligned (enc w h : Nat) :
    (config_port enc w h).cropX = 0 ∧ (config_port enc w h).cropY = 0 ∧
    (∃ aw, (config_port enc w h).videoWidth = VCOS_ALIGN_UP aw 32 ∧
      (config_port enc w h).cropWidth ≤ aw) ∧
    (∃ ah, (config_port enc w h).videoHeight = VCOS_ALIGN_UP ah 16 ∧
      (config_port enc w h).cropHeight ≤ ah) :=
  ⟨rfl, rfl, ⟨w, rfl, Nat.le_refl w⟩, ⟨h, rfl, Nat.le_refl h⟩⟩

lemma config_port_crop_aligned (enc aw ah cw ch : Nat)
    (hw : cw ≤ aw) (hh : ch ≤ ah) :
    (config_port_crop enc aw ah cw ch).cropX = 0 ∧
    (config_port_crop enc aw ah cw ch).cropY = 0 ∧
    (∃ w, (config_port_crop enc aw ah cw ch).videoWidth = VCOS_ALIGN_UP w 32 ∧
      (config_port_crop enc aw ah cw ch).cropWidth ≤ w) ∧
    (∃ h, (config_port_crop enc aw ah cw ch).videoHeight = VCOS_ALIGN_UP h 16 ∧
      (config_port_crop enc aw ah cw ch).cropHeight ≤ h) :=
  ⟨rfl, rfl, ⟨aw, rfl, hw⟩, ⟨ah, rfl, hh⟩⟩

/-- C8 (counterexample): for a raw-mode camera the shared upstream size
is NOT the component-wise maximum over the slots.  Concretely, for the
IMX219 rawcam with one 640×480 slot the upstream size is magnified to
3200×2400 (mag = min(3280/640, 2464/480) = 5): the committed splitter
input crop is 3200×2400, not the 640×480 maximum the claim demands. -/
theorem claim8_counterexample :
    upstreamSize sampleRawCamera ≠
      (maxRequestedWidth sampleRawCamera, maxRequestedHeight sampleRawCamera) ∧
    maxRequestedWidth sampleRawCamera = 640 ∧
    maxRequestedHeight sampleRawCamera = 480 ∧
    upstreamSize sampleRawCamera = (3200, 2400) ∧
    (PortId.splitterInput, config_port MMAL_ENCODING_RGB24 3200 2400) ∈
      rpigrafx_finish_config_ports sampleRawCamera ∧
    (PortId.splitterInput, config_port MMAL_ENCODING_RGB24 640 480) ∉
      rpigrafx_finish_config_ports sampleRawCamera := by
  decide

/-- C8 (amended): for every used camera the builder sizes the source
output and the splitter input to the shared upstream size, which in
processed mode is exactly the component-wise maximum over the camera's
output slots, but in raw mode is that maximum multiplied by
`mag = min(camMaxWidth / maxWidth, camMaxHeight / maxHeight)` (integer
division). -/
theorem claim8_upstream_max (cfg : CamerasConfig) :
    (cfg.isRawcam = false →
      upstreamSize cfg = (maxRequestedWidth cfg, maxRequestedHeight cfg)) ∧
    (cfg.isRawcam = true →
      upstreamSize cfg
        = (maxRequestedWidth cfg *
             rawcamMag cfg (maxRequestedWidth cfg) (maxRequestedHeight cfg),
           maxRequestedHeight cfg *
             rawcamMag cfg (maxRequestedWidth cfg)
               (maxRequestedHeight cfg))) ∧
    (PortId.splitterInput,
      config_port MMAL_ENCODING_RGB24 (upstreamSize cfg).1
        (upstreamSize cfg).2) ∈ rpigrafx_finish_config_ports cfg ∧
    (cfg.isRawcam = false →
      (PortId.cameraOutput,
        config_port MMAL_ENCODING_RGB24 (upstreamSize cfg).1
          (upstreamSize cfg).2) ∈ rpigrafx_finish_config_ports cfg) ∧
    (cfg.isRawcam = true →
      (PortId.rawcamOutput,
        config_port cfg.rawEncoding (upstreamSize cfg).1
          (upstreamSize cfg).2) ∈ rpigrafx_finish_config_ports cfg) :=
  ⟨fun h => by simp [upstreamSize, h],
   fun h => by simp [upstreamSize, h],
   mem_ports_splitterInput cfg,
   fun h => mem_ports_cameraOutput cfg h,
   fun h => mem_ports_rawcamOutput cfg h⟩

/-- C8 (amended, witness): for the concrete two-slot processed camera the
upstream size is exactly the component-wise maximum. -/
theorem claim8_witness :
    upstreamSize sampleTwoSlotCamera =
      (maxRequestedWidth sampleTwoSlotCamera,
       maxRequestedHeight sampleTwoSlotCamera) :=
  (claim8_upstream_max sampleTwoSlotCamera).1 rfl

/-- C9: every splitter output port j (and the matching isp input) of a
used camera is committed with crop width
`slot.width * (maxWidth / slot.width)` and crop height
`slot.height * (maxHeight / slot.height)` (integer division, truncating
when the shared dimension is not an exact multiple of the slot's), where
maxWidth/maxHeight are the shared upstream dimensions; these are the only
ports carrying those names. -/
theorem claim9_crop_formula (cfg : CamerasConfig) (j : Nat)
    (hj : j < cfg.nextOutputIdx) :
    (PortId.splitterOutput j,
      config_port_crop MMAL_ENCODING_RGB24 (upstreamSize cfg).1
        (upstreamSize cfg).2
        ((cfg.isp j).width * ((upstreamSize cfg).1 / (cfg.isp j).width))
        ((cfg.isp j).height * ((upstreamSize cfg).2 / (cfg.isp j).height)))
      ∈ rpigrafx_finish_config_ports cfg ∧
    (PortId.ispInput j,
      config_port_crop MMAL_ENCODING_RGB24 (upstreamSize cfg).1
        (upstreamSize cfg).2
        ((cfg.isp j).width * ((upstreamSize cfg).1 / (cfg.isp j).width))
        ((cfg.isp j).height * ((upstreamSize cfg).2 / (cfg.isp j).height)))
      ∈ rpigrafx_finish_config_ports cfg ∧
    (∀ pc, (PortId.splitterOutput j, pc) ∈ rpigrafx_finish_config_ports cfg →
      pc.cropWidth =
        (cfg.isp j).width * ((upstreamSize cfg).1 / (cfg.isp j).width) ∧
      pc.cropHeight =
        (cfg.isp j).height * ((upstreamSize cfg).2 / (cfg.isp j).height)) ∧
    (∀ pc, (PortId.ispInput j, pc) ∈ rpigrafx_finish_config_ports cfg →
      pc.cropWidth =
        (cfg.isp j).width * ((upstreamSize cfg).1 / (cfg.isp j).width) ∧
      pc.cropHeight =
        (cfg.isp j).height * ((upstreamSize cfg).2 / (cfg.isp j).height)) := by
  refine ⟨mem_ports_splitterOutput cfg j hj, mem_ports_ispInput cfg j hj,
    ?_, ?_⟩ <;>
  · intro pc hpc
    cases hraw : cfg.isRawcam <;> cases hcap : cfg.useCameraCapturePort <;>
      simp [rpigrafx_finish_config_ports, setup_cp_camera_ports,
        setup_cp_camera_rawcam_ports, setup_cp_splitter_ports,
        setup_cp_null_ports, setup_cp_isp_ports, setup_cp_render_ports,
        hraw, hcap, List.mem_append, List.mem_flatMap, List.mem_range,
        List.mem_map, Prod.mk.injEq] at hpc <;>
    · obtain ⟨a, -, rfl, rfl⟩ := hpc
      exact ⟨rfl, rfl⟩

/-- C9 (witness): on the concrete two-slot camera (shared maximum
1280×720), splitter output 0 for the 512×300 slot is committed with the
truncating crop 1024×600. -/
theorem claim9_witness :
    (PortId.splitterOutput 0,
      config_port_crop MMAL_ENCODING_RGB24 (upstreamSize sampleTwoSlotCamera).1
        (upstreamSize sampleTwoSlotCamera).2
        ((sampleTwoSlotCamera.isp 0).width *
          ((upstreamSize sampleTwoSlotCamera).1 /
            (sampleTwoSlotCamera.isp 0).width))
        ((sampleTwoSlotCamera.isp 0).height *
          ((upstreamSize sampleTwoSlotCamera).2 /
            (sampleTwoSlotCamera.isp 0).height)))
      ∈ rpigrafx_finish_config_ports sampleTwoSlotCamera :=
  (claim9_crop_formula sampleTwoSlotCamera 0 (by decide)).1

/-- C10: `VCOS_ALIGN_UP` rounds up to the next multiple (of 32 for
widths, 16 for heights); every port the builder configures is committed
with a 32-aligned video width and 16-aligned video height covering its
crop, with the crop rectangle at offset (0,0); and the host-side row
stride used by the capture path is exactly the 32-aligned committed
width of the shared upstream (splitter input) stage, not the requested
width. -/
theorem claim10_port_alignment :
    (∀ v : Nat, VCOS_ALIGN_UP v 32 % 32 = 0 ∧ v ≤ VCOS_ALIGN_UP v 32 ∧
      VCOS_ALIGN_UP v 32 < v + 32) ∧
    (∀ v : Nat, VCOS_ALIGN_UP v 16 % 16 = 0 ∧ v ≤ VCOS_ALIGN_UP v 16 ∧
      VCOS_ALIGN_UP v 16 < v + 16) ∧
    (∀ (cfg : CamerasConfig) (p : PortId × PortConfig),
      p ∈ rpigrafx_finish_config_ports cfg →
      p.2.cropX = 0 ∧ p.2.cropY = 0 ∧
      (∃ aw, p.2.videoWidth = VCOS_ALIGN_UP aw 32 ∧ p.2.cropWidth ≤ aw) ∧
      (∃ ah, p.2.videoHeight = VCOS_ALIGN_UP ah 16 ∧ p.2.cropHeight ≤ ah)) ∧
    (∀ (cfg : CamerasConfig) (pc : PortConfig),
      (PortId.splitterInput, pc) ∈ rpigrafx_finish_config_ports cfg →
      capture_next_frame_stride (rpigrafx_finish_config_cfg cfg)
        = pc.videoWidth) := by
  refine ⟨?_, ?_, ?_, ?_⟩
  · intro v
    unfold VCOS_ALIGN_UP
    omega
  · intro v
    unfold VCOS_ALIGN_UP
    omega
  · intro cfg p hp
    cases hraw : cfg.isRawcam <;> cases hcap : cfg.useCameraCapturePort <;>
      simp [rpigrafx_finish_config_ports, setup_cp_camera_ports,
        setup_cp_camera_rawcam_ports, setup_cp_splitter_ports,
        setup_cp_null_ports, setup_cp_isp_ports, setup_cp_render_ports,
        hraw, hcap, List.mem_append, List.mem_flatMap, List.mem_range,
        List.mem_map] at hp
    · rcases hp with rfl | rfl | ⟨a, -, rfl⟩ | ⟨a, -, rfl | rfl | rfl⟩
      · exact config_port_aligned _ _ _
      · exact config_port_aligned _ _ _
      · exact config_port_crop_aligned _ _ _ _ _ (crop_le _ _) (crop_le _ _)
      · exact config_port_crop_aligned _ _ _ _ _ (crop_le _ _) (crop_le _ _)
      · exact config_port_aligned _ _ _
      · exact config_port_aligned _ _ _
    · rcases hp with rfl | rfl | rfl | ⟨a, -, rfl⟩ | rfl | ⟨a, -, rfl | rfl | rfl⟩
      · exact config_port_aligned _ _ _
      · exact config_port_aligned _ _ _
      · exact config_port_aligned _ _ _
      · exact config_port_crop_aligned _ _ _ _ _ (crop_le _ _) (crop_le _ _)
      · exact config_port_aligned _ _ _
      · exact config_port_crop_aligned _ _ _ _ _ (crop_le _ _) (crop_le _ _)
      · exact config_port_aligned _ _ _
      · exact config_port_aligned _ _ _
    · rcases hp with rfl | rfl | ⟨a, -, rfl⟩ | ⟨a, -, rfl | rfl | rfl⟩
      · exact config_port_aligned _ _ _
      · exact config_port_aligned _ _ _
      · exact config_port_crop_aligned _ _ _ _ _ (crop_le _ _) (crop_le _ _)
      · exact config_port_crop_aligned _ _ _ _ _ (crop_le _ _) (crop_le _ _)
      · exact config_port_aligned _ _ _
      · exact config_port_aligned _ _ _
    · rcases hp with rfl | rfl | ⟨a, -, rfl⟩ | rfl | ⟨a, -, rfl | rfl | rfl⟩
      · exact config_port_aligned _ _ _
      · exact config_port_aligned _ _ _
      · exact config_port_crop_aligned _ _ _ _ _ (crop_le _ _) (crop_le _ _)
      · exact config_port_aligned _ _ _
      · exact config_port_crop_aligned _ _ _ _ _ (crop_le _ _) (crop_le _ _)
      · exact config_port_aligned _ _ _
      · exact config_port_aligned _ _ _
  · intro cfg pc hpc
    cases hraw : cfg.isRawcam <;> cases hcap : cfg.useCameraCapturePort <;>
      simp [rpigrafx_finish_config_ports, setup_cp_camera_ports,
        setup_cp_camera_rawcam_ports, setup_cp_splitter_ports,
        setup_cp_null_ports, setup_cp_isp_ports, setup_cp_render_ports,
        hraw, hcap, List.mem_append, List.mem_flatMap, List.mem_range,
        List.mem_map, Prod.mk.injEq] at hpc <;>
    · subst hpc
      rfl

/-- C10 (witness): the splitter input of the concrete two-slot camera
(upstream 1280×720) satisfies the alignment/crop property. -/
theorem claim10_witness :
    ((PortId.splitterInput, config_port MMAL_ENCODING_RGB24 1280 720) :
        PortId × PortConfig).2.cropX = 0 ∧
    ((PortId.splitterInput, config_port MMAL_ENCODING_RGB24 1280 720) :
        PortId × PortConfig).2.cropY = 0 ∧
    (∃ aw, ((PortId.splitterInput, config_port MMAL_ENCODING_RGB24 1280 720) :
        PortId × PortConfig).2.videoWidth = VCOS_ALIGN_UP aw 32 ∧
      ((PortId.splitterInput, config_port MMAL_ENCODING_RGB24 1280 720) :
        PortId × PortConfig).2.cropWidth ≤ aw) ∧
    (∃ ah, ((PortId.splitterInput, config_port MMAL_ENCODING_RGB24 1280 720) :
        PortId × PortConfig).2.videoHeight = VCOS_ALIGN_UP ah 16 ∧
      ((PortId.splitterInput, config_port MMAL_ENCODING_RGB24 1280 720) :
        PortId × PortConfig).2.cropHeight ≤ ah) :=
  claim10_port_alignment.2.2.1 sampleTwoSlotCamera
    (PortId.splitterInput, config_port MMAL_ENCODING_RGB24 1280 720)
    (by decide)
